import Mathlib

/-!
Verification of the YT Dubber web client against its specification.

The excerpt of the repository available here is the web client layer:
the server-sent-events hook `useJobSSE`, the `Home` page, the API wrapper
(`handleResponse`, `submitDub`, `submitStory`), the auth storage module,
and the `DubForm` / `StoryForm` components.  Each definition below is a
shallow embedding of the corresponding source function.  The pipeline
engine itself (Cache Store, Stage Executor, Pipeline Scheduler) is not in
the excerpt; where a claim is about the engine, the definition is modelled
from the specification text and says so in its doc comment.
-/

set_option autoImplicit false

namespace YT

/-! ## Server-sent-event client (`useJobSSE`, src/unnamed/part_000)

The hook registers four handlers on an `EventSource`:
`onmessage` appends the event data to `lines`; `addEventListener` on the
event type `error` stores the data in `error`; the listener for the named
`done` event sets the status from the payload and closes the source;
`onerror` sets the status to `failed` and closes the source.  Note that
`onerror` is the handler for the DOM event type `error`, so it fires both
on a connection-level failure and on a server-sent event named `error`:
a server-sent `error` event is dispatched to both registered listeners,
recording its message and then failing and closing the stream.  We model
the stream as a list of delivered events and the hook state as a record
folded over that list; once the `EventSource` is closed no further event
is delivered. -/

/-- One event delivered on a job's event stream. -/
inductive SSEvent where
  | message (data : String)
  | namedError (data : String)
  | done (data : String)
  | connError
deriving DecidableEq, Repr

/-- The `status` state of `useJobSSE`. -/
inductive StreamStatus where
  | connecting
  | streaming
  | done
  | failed
deriving DecidableEq, Repr

/-- The state held by `useJobSSE`: the `lines`, `status` and `error`
React states, plus whether the `EventSource` has been closed. -/
structure SSEState where
  lines : List String
  status : StreamStatus
  error : Option String
  closed : Bool
deriving DecidableEq, Repr

/-- Initial hook state, as set at the start of the effect. -/
def initSSE : SSEState :=
  { lines := [], status := StreamStatus.connecting, error := none, closed := false }

/-- `es.onopen`: the connection is established. -/
def onOpen (s : SSEState) : SSEState :=
  { s with status := StreamStatus.streaming }

/-- Dispatch of one delivered event to the registered handlers.  A closed
`EventSource` delivers nothing, so the state is unchanged.  A server-sent
`error` event is of DOM event type `error`, so it invokes both the
listener added with `addEventListener` (which records the message) and
`es.onerror` (which sets the status to `failed` and closes the source). -/
def sseStep (s : SSEState) (e : SSEvent) : SSEState :=
  if s.closed then s
  else
    match e with
    | SSEvent.message d => { s with lines := s.lines ++ [d] }
    | SSEvent.namedError d =>
        { s with error := some d, status := StreamStatus.failed, closed := true }
    | SSEvent.done d =>
        { s with
          status := if d = "completed" then StreamStatus.done else StreamStatus.failed,
          closed := true }
    | SSEvent.connError => { s with status := StreamStatus.failed, closed := true }

/-- Fold the hook state over a list of delivered events. -/
def sseRun (s : SSEState) : List SSEvent → SSEState
  | [] => s
  | e :: es => sseRun (sseStep s e) es

/-- Events whose dispatch leaves the stream open: only plain `message`
progress lines.  A named `error` event also fires `es.onerror` (same DOM
event type), which closes the stream, so it is terminal in the client. -/
def keepsOpen : SSEvent → Bool
  | SSEvent.message _ => true
  | SSEvent.namedError _ => false
  | SSEvent.done _ => false
  | SSEvent.connError => false

/-- The data carried by a plain `message` event, if the event is one. -/
def messageData : SSEvent → Option String
  | SSEvent.message d => some d
  | _ => none

theorem sseStep_of_closed (s : SSEState) (e : SSEvent) (h : s.closed = true) :
    sseStep s e = s := by
  simp [sseStep, h]

theorem sseRun_of_closed (s : SSEState) (es : List SSEvent) (h : s.closed = true) :
    sseRun s es = s := by
  induction es with
  | nil => rfl
  | cons e es ih => simpa [sseRun, sseStep_of_closed s e h] using ih

theorem sseRun_append (s : SSEState) (xs ys : List SSEvent) :
    sseRun s (xs ++ ys) = sseRun (sseRun s xs) ys := by
  induction xs generalizing s with
  | nil => rfl
  | cons x xs ih => simpa [sseRun] using ih (sseStep s x)

theorem sseRun_keepsOpen_closed (es : List SSEvent) :
    ∀ s : SSEState, (∀ e ∈ es, keepsOpen e = true) → s.closed = false →
      (sseRun s es).closed = false := by
  induction es with
  | nil => intro s _ h; exact h
  | cons e es ih =>
      intro s hnt h
      have he := hnt e (List.mem_cons_self e es)
      have hrest : ∀ x ∈ es, keepsOpen x = true :=
        fun x hx => hnt x (List.mem_cons_of_mem e hx)
      cases e with
      | message d => exact ih _ hrest (by simp [sseStep, h])
      | namedError d => simp [keepsOpen] at he
      | done d => simp [keepsOpen] at he
      | connError => simp [keepsOpen] at he

/-- Claim C1 counterexample: the claim as stated covers a stream with a
named `error` warning before the terminal `done completed` event and
predicts a final status of `done`; but the named `error` event also
fires `es.onerror`, which fails and closes the stream, so the `done`
event is never processed and the final status is `failed`. -/
theorem C1_counterexample :
    (sseRun (onOpen initSSE) [SSEvent.namedError "w", SSEvent.done "completed"]).status =
      StreamStatus.failed ∧
    (sseRun (onOpen initSSE) [SSEvent.namedError "w", SSEvent.done "completed"]).status ≠
      StreamStatus.done := by
  decide

/-- Claim C1 (amended): for a stream consisting of plain `message` lines
followed by a single terminal `done` event whose payload is `completed`
or `failed` (the stream shape guaranteed by the engine, modelled from
the spec; a named `error` event before the `done` would close the stream
early), the client ends with the `EventSource` closed, its final status
is `done` exactly when the payload equals `"completed"` and `failed`
when the payload is `"failed"`, and no event delivered afterwards
changes the state. -/
theorem C1_terminal_done (pre : List SSEvent) (payload : String)
    (hpre : ∀ e ∈ pre, keepsOpen e = true)
    (hpay : payload = "completed" ∨ payload = "failed") :
    (sseRun (onOpen initSSE) (pre ++ [SSEvent.done payload])).closed = true ∧
    ((sseRun (onOpen initSSE) (pre ++ [SSEvent.done payload])).status = StreamStatus.done ↔
      payload = "completed") ∧
    (payload = "failed" →
      (sseRun (onOpen initSSE) (pre ++ [SSEvent.done payload])).status = StreamStatus.failed) ∧
    (∀ more, sseRun (sseRun (onOpen initSSE) (pre ++ [SSEvent.done payload])) more =
      sseRun (onOpen initSSE) (pre ++ [SSEvent.done payload])) := by
  have hopen : (onOpen initSSE).closed = false := rfl
  have hmid : (sseRun (onOpen initSSE) pre).closed = false :=
    sseRun_keepsOpen_closed pre (onOpen initSSE) hpre hopen
  have hsplit : sseRun (onOpen initSSE) (pre ++ [SSEvent.done payload]) =
      sseStep (sseRun (onOpen initSSE) pre) (SSEvent.done payload) := by
    rw [sseRun_append]; rfl
  have hstep : sseStep (sseRun (onOpen initSSE) pre) (SSEvent.done payload) =
      { sseRun (onOpen initSSE) pre with
        status := if payload = "completed" then StreamStatus.done else StreamStatus.failed,
        closed := true } := by
    simp [sseStep, hmid]
  refine ⟨?_, ?_, ?_, ?_⟩
  · rw [hsplit, hstep]
  · rw [hsplit, hstep]
    by_cases hc : payload = "completed" <;> simp [hc]
  · intro hf
    rcases hpay with hc | _
    · rw [hc] at hf; exact absurd hf (by decide)
    · rw [hsplit, hstep]
      simp [hf]
  · intro more
    apply sseRun_of_closed
    rw [hsplit, hstep]

/-- Claim C1 witness: a concrete stream of two progress lines followed by
`done completed` ends closed with status `done`; an extra late event is
ignored. -/
theorem C1_terminal_done_witness :
    (sseRun (onOpen initSSE)
      ([SSEvent.message "a", SSEvent.message "b"] ++ [SSEvent.done "completed"])).closed = true ∧
    (sseRun (onOpen initSSE)
      ([SSEvent.message "a", SSEvent.message "b"] ++ [SSEvent.done "completed"])).status =
      StreamStatus.done := by
  have h := C1_terminal_done [SSEvent.message "a", SSEvent.message "b"] "completed"
    (by decide) (Or.inl rfl)
  exact ⟨h.1, h.2.1.mpr rfl⟩

/-- Claim C2 counterexample: the claim as stated says no line is lost
while streaming; on the concrete delivered trace `message "x"`, named
`error "w"`, `message "y"` the client holds only `["x"]` — the warning
event closed the stream (its DOM type also fires `es.onerror`), so the
later line `"y"` is lost. -/
theorem C2_counterexample :
    (sseRun (onOpen initSSE)
      [SSEvent.message "x", SSEvent.namedError "w", SSEvent.message "y"]).lines = ["x"] ∧
    (sseRun (onOpen initSSE)
      [SSEvent.message "x", SSEvent.namedError "w", SSEvent.message "y"]).lines ≠ ["x", "y"] := by
  decide

/-- Claim C2 (amended): while the stream is open and only plain
`message` events arrive, each message event appends exactly its data to
the end of the `lines` list, in arrival order, with no line lost,
duplicated or reordered, and nothing else mutates the list; a named
`error` event, however, closes the stream and lines after it are
lost. -/
theorem C2_lines_in_order (es : List SSEvent) :
    ∀ s : SSEState, s.closed = false → (∀ e ∈ es, keepsOpen e = true) →
      (sseRun s es).lines = s.lines ++ es.filterMap messageData := by
  induction es with
  | nil => intro s _ _; simp [sseRun]
  | cons e es ih =>
      intro s hclosed hnt
      have he := hnt e (List.mem_cons_self e es)
      have hrest : ∀ x ∈ es, keepsOpen x = true :=
        fun x hx => hnt x (List.mem_cons_of_mem e hx)
      cases e with
      | message d =>
          have hstep : sseStep s (SSEvent.message d) = { s with lines := s.lines ++ [d] } := by
            simp [sseStep, hclosed]
          have := ih { s with lines := s.lines ++ [d] } (by simp [hclosed]) hrest
          simp [sseRun, hstep, this, messageData]
      | namedError d => simp [keepsOpen] at he
      | done d => simp [keepsOpen] at he
      | connError => simp [keepsOpen] at he

/-- Claim C2 witness: two message events yield exactly the two lines, in
order. -/
theorem C2_lines_in_order_witness :
    (sseRun (onOpen initSSE)
      [SSEvent.message "x", SSEvent.message "y"]).lines = ["x", "y"] := by
  have h := C2_lines_in_order
    [SSEvent.message "x", SSEvent.message "y"]
    (onOpen initSSE) (by decide) (by decide)
  simpa using h

/-- Claim C6 (code bug): the spec says a named `error` event is a
non-fatal mid-job warning that only records its message, leaving the
rest of the client state and the open stream untouched.  In the code the
browser dispatches every event of DOM type `error` to `es.onerror` as
well as to the listener added with `addEventListener`, so on a concrete
open stream the warning records its message but also sets the status to
`failed` and closes the `EventSource` — the event is fatal in the
client, contradicting the claim and the spec. -/
theorem C6_named_error_closes :
    (sseStep (onOpen initSSE) (SSEvent.namedError "warn")).error = some "warn" ∧
    (sseStep (onOpen initSSE) (SSEvent.namedError "warn")).status = StreamStatus.failed ∧
    (sseStep (onOpen initSSE) (SSEvent.namedError "warn")).closed = true := by
  decide

/-- Claim C9: a connection-level `EventSource` failure while the stream
is open sets the stream status to `failed` and closes the source; the
closure is permanent, so any events delivered afterwards leave the state
unchanged (no reconnection is attempted). -/
theorem C9_conn_error_fails (s : SSEState) (h : s.closed = false) :
    (sseStep s SSEvent.connError).status = StreamStatus.failed ∧
    (sseStep s SSEvent.connError).closed = true ∧
    ∀ es, sseRun (sseStep s SSEvent.connError) es = sseStep s SSEvent.connError := by
  have hstep : sseStep s SSEvent.connError =
      { s with status := StreamStatus.failed, closed := true } := by
    simp [sseStep, h]
  refine ⟨by rw [hstep], by rw [hstep], fun es => ?_⟩
  apply sseRun_of_closed
  rw [hstep]

/-- Claim C9 witness: a connection drop right after open marks the stream
failed, closed, and a subsequent message is not processed. -/
theorem C9_conn_error_fails_witness :
    (sseStep (onOpen initSSE) SSEvent.connError).status = StreamStatus.failed ∧
    (sseStep (onOpen initSSE) SSEvent.connError).closed = true ∧
    sseRun (sseStep (onOpen initSSE) SSEvent.connError) [SSEvent.message "late"] =
      sseStep (onOpen initSSE) SSEvent.connError := by
  have h := C9_conn_error_fails (onOpen initSSE) (by decide)
  exact ⟨h.1, h.2.1, h.2.2 [SSEvent.message "late"]⟩

/-! ## Home page (src/web/app/page.tsx)

`Home` keeps `jobId`, `jobDone` and `jobStatus`.  `handleJobStarted`
resets `jobDone` to false and `jobStatus` to running; `handleDone` sets
`jobDone` and the outcome.  The download button is rendered exactly by
the guard `jobDone && jobStatus === "completed"`. -/

/-- The `jobStatus` state of the `Home` page. -/
inductive JobStatus where
  | running
  | completed
  | failed
deriving DecidableEq, Repr

/-- The outcome passed by `JobProgress` to `onDone`. -/
inductive Outcome where
  | completed
  | failed
deriving DecidableEq, Repr

/-- The job-related state of the `Home` page. -/
structure HomeState where
  jobId : Option String
  jobDone : Bool
  jobStatus : JobStatus
deriving DecidableEq, Repr

/-- `handleJobStarted`: a submission succeeded and returned a job id. -/
def handleJobStarted (s : HomeState) (id : String) : HomeState :=
  { s with jobId := some id, jobDone := false, jobStatus := JobStatus.running }

/-- `handleDone`: the progress stream reported the terminal outcome. -/
def handleDone (s : HomeState) (o : Outcome) : HomeState :=
  { s with
    jobDone := true,
    jobStatus := match o with
      | Outcome.completed => JobStatus.completed
      | Outcome.failed => JobStatus.failed }

/-- The render guard `jobDone && jobStatus === "completed"` in front of
`DownloadButton` in page.tsx. -/
def showDownload (s : HomeState) : Bool :=
  s.jobDone && decide (s.jobStatus = JobStatus.completed)

/-- Claim C5: the download link is rendered exactly when the job has
terminated with outcome completed: the guard holds iff `jobDone` is set
with status completed, it is false right after a job starts (running),
false after a failed termination, and true after a completed one. -/
theorem C5_download_gate (s : HomeState) (id : String) :
    (showDownload s = true ↔ s.jobDone = true ∧ s.jobStatus = JobStatus.completed) ∧
    showDownload (handleJobStarted s id) = false ∧
    showDownload (handleDone s Outcome.failed) = false ∧
    showDownload (handleDone s Outcome.completed) = true := by
  refine ⟨?_, ?_, ?_, ?_⟩
  · simp [showDownload]
  · simp [showDownload, handleJobStarted]
  · simp [showDownload, handleDone]
  · simp [showDownload, handleDone]

/-! ## API wrapper and auth storage
(src/web/app/lib/api.ts, src/unnamed/part_002)

The auth module stores a token and an email in local storage; `logout`
removes both.  `handleResponse` intercepts 401/403 responses: it logs
out, redirects to `/login` and throws `"Session expired"`; every other
response is passed through unchanged.  `submitDub` / `submitStory` then
throw `err.detail || fallback` when the response is not OK — by
JavaScript truthiness the fixed fallback is used when `detail` is absent
or the empty string — and otherwise return the parsed body.  The forms call `onJobStarted`
only with the `job_id` of a successfully returned body. -/

/-- The local-storage auth state (`yt_token`, `yt_email`). -/
structure Storage where
  token : Option String
  email : Option String
deriving DecidableEq, Repr

/-- `logout`: remove both stored keys. -/
def logout (_st : Storage) : Storage :=
  { token := none, email := none }

/-- Browser-side state visible to the API wrapper: the auth storage and
the location assigned by a redirect, if any. -/
structure ClientState where
  storage : Storage
  location : Option String
deriving DecidableEq, Repr

/-- The parsed body of a successful job-submission response. -/
structure JobResponse where
  job_id : String
  status : String
  progress : List String
  output_path : Option String
  error : Option String
deriving DecidableEq, Repr

/-- An HTTP response as the wrapper observes it: status code, the `ok`
flag, the error body's `detail` field when present, and the parsed
success body. -/
structure ApiResponse where
  status : Nat
  ok : Bool
  detail : Option String
  body : JobResponse
deriving DecidableEq, Repr

/-- `handleResponse`: on 401/403 log out, redirect to `/login` and
throw; otherwise return the response unchanged. -/
def handleResponse (c : ClientState) (res : ApiResponse) :
    ClientState × Except String ApiResponse :=
  if res.status = 401 ∨ res.status = 403 then
    ({ storage := logout c.storage, location := some "/login" },
      Except.error "Session expired")
  else
    (c, Except.ok res)

/-- JavaScript truthiness fallback `a || b` on an optional string: the
string when present and non-empty, the fallback when it is absent or the
empty string. -/
def truthyOr : Option String → String → String
  | some d, fb => if d = "" then fb else d
  | none, fb => fb

/-- `submitDub`: run the response through `handleResponse`; if not OK,
throw `err.detail || fallback`; otherwise return the parsed body. -/
def submitDub (c : ClientState) (res : ApiResponse) :
    ClientState × Except String JobResponse :=
  match handleResponse c res with
  | (c2, Except.error m) => (c2, Except.error m)
  | (c2, Except.ok r) =>
      if r.ok then (c2, Except.ok r.body)
      else (c2, Except.error (truthyOr r.detail "Failed to submit dub job"))

/-- `submitStory`: same shape as `submitDub` with the story endpoint's
fallback message. -/
def submitStory (c : ClientState) (res : ApiResponse) :
    ClientState × Except String JobResponse :=
  match handleResponse c res with
  | (c2, Except.error m) => (c2, Except.error m)
  | (c2, Except.ok r) =>
      if r.ok then (c2, Except.ok r.body)
      else (c2, Except.error (truthyOr r.detail "Failed to submit story job"))

/-- The observable result of a form's `handleSubmit`: the job id passed
to `onJobStarted`, if any, and the error message displayed, if any. -/
structure FormResult where
  jobStarted : Option String
  errorMsg : Option String
deriving DecidableEq, Repr

/-- `DubForm.handleSubmit`: call `onJobStarted` with the returned job id
on success; on a thrown error, display its message instead. -/
def handleSubmitDub (c : ClientState) (res : ApiResponse) : ClientState × FormResult :=
  match submitDub c res with
  | (c2, Except.ok j) => (c2, { jobStarted := some j.job_id, errorMsg := none })
  | (c2, Except.error m) => (c2, { jobStarted := none, errorMsg := some m })

/-- `StoryForm.handleSubmit`: same shape as the dub form. -/
def handleSubmitStory (c : ClientState) (res : ApiResponse) : ClientState × FormResult :=
  match submitStory c res with
  | (c2, Except.ok j) => (c2, { jobStarted := some j.job_id, errorMsg := none })
  | (c2, Except.error m) => (c2, { jobStarted := none, errorMsg := some m })

/-- A sample parsed body, used by concrete witnesses. -/
def sampleJob : JobResponse :=
  { job_id := "j1", status := "queued", progress := [], output_path := none, error := none }

/-- A sample browser state with a stored token and email. -/
def cSample : ClientState :=
  { storage := { token := some "t", email := some "e" }, location := none }

/-- Claim C8: on a 401 or 403 response the wrapper removes the stored
token and email, redirects to `/login` and throws, so the body is never
returned; on every other status the response is passed through with the
client state unchanged. -/
theorem C8_auth_guard (c : ClientState) (res : ApiResponse) :
    ((res.status = 401 ∨ res.status = 403) →
      handleResponse c res =
        ({ storage := { token := none, email := none }, location := some "/login" },
          Except.error "Session expired")) ∧
    (res.status ≠ 401 → res.status ≠ 403 → handleResponse c res = (c, Except.ok res)) := by
  constructor
  · intro h
    simp [handleResponse, h, logout]
  · intro h1 h2
    simp [handleResponse, h1, h2]

/-- Claim C8 witness: a 401 response with a stored token logs out,
redirects and throws; a 200 response is passed through unchanged. -/
theorem C8_auth_guard_witness :
    handleResponse cSample { status := 401, ok := false, detail := some "nope", body := sampleJob } =
      ({ storage := { token := none, email := none }, location := some "/login" },
        Except.error "Session expired") ∧
    handleResponse cSample { status := 200, ok := true, detail := none, body := sampleJob } =
      (cSample, Except.ok { status := 200, ok := true, detail := none, body := sampleJob }) :=
  ⟨(C8_auth_guard cSample _).1 (Or.inl rfl),
    (C8_auth_guard cSample _).2 (by decide) (by decide)⟩

/-- Claim C7 counterexample: the claim as stated says every not-OK
response makes the submit function throw the body's `detail` message
when one is present; but a 401 response with `detail` present throws
the fixed `"Session expired"` message from the auth interceptor
instead. -/
theorem C7_counterexample :
    (submitDub cSample { status := 401, ok := false, detail := some "nope", body := sampleJob }).2 ≠
      Except.error ((some "nope").getD "Failed to submit dub job") := by
  have hval : (submitDub cSample
      { status := 401, ok := false, detail := some "nope", body := sampleJob }).2 =
      Except.error "Session expired" := rfl
  rw [hval]
  intro h
  exact absurd (Except.error.inj h) (by decide)

/-- Claim C7 (amended): for every dub or story submission whose response
is not OK, the submit function throws — no job id is returned and the
form's `onJobStarted` handler is never invoked; when the status is
neither 401 nor 403 the thrown error carries the server's `detail`
message when it is present and non-empty, and the endpoint's fixed
fallback message otherwise (JavaScript truthiness), while on 401/403 the
thrown error is the auth interceptor's fixed `"Session expired"`
message. -/
theorem C7_rejected_submission (c : ClientState) (res : ApiResponse) (hok : res.ok = false) :
    (∃ m, (submitDub c res).2 = Except.error m) ∧
    (∃ m, (submitStory c res).2 = Except.error m) ∧
    (handleSubmitDub c res).2.jobStarted = none ∧
    (handleSubmitStory c res).2.jobStarted = none ∧
    ((res.status = 401 ∨ res.status = 403) →
      (submitDub c res).2 = Except.error "Session expired" ∧
      (submitStory c res).2 = Except.error "Session expired") ∧
    (res.status ≠ 401 → res.status ≠ 403 →
      (submitDub c res).2 = Except.error (truthyOr res.detail "Failed to submit dub job") ∧
      (submitStory c res).2 = Except.error (truthyOr res.detail "Failed to submit story job")) := by
  by_cases hauth : res.status = 401 ∨ res.status = 403
  · have hh : handleResponse c res =
        ({ storage := logout c.storage, location := some "/login" },
          Except.error "Session expired") := by
      simp [handleResponse, hauth]
    refine ⟨⟨"Session expired", ?_⟩, ⟨"Session expired", ?_⟩, ?_, ?_,
      fun _ => ⟨?_, ?_⟩, ?_⟩
    · simp [submitDub, hh]
    · simp [submitStory, hh]
    · simp [handleSubmitDub, submitDub, hh]
    · simp [handleSubmitStory, submitStory, hh]
    · simp [submitDub, hh]
    · simp [submitStory, hh]
    · intro h1 h2
      rcases hauth with h | h
      · exact absurd h h1
      · exact absurd h h2
  · have hh : handleResponse c res = (c, Except.ok res) := by
      simp [handleResponse, hauth]
    refine ⟨⟨truthyOr res.detail "Failed to submit dub job", ?_⟩,
      ⟨truthyOr res.detail "Failed to submit story job", ?_⟩, ?_, ?_,
      fun h => absurd h hauth, fun _ _ => ⟨?_, ?_⟩⟩
    · simp [submitDub, hh, hok]
    · simp [submitStory, hh, hok]
    · simp [handleSubmitDub, submitDub, hh, hok]
    · simp [handleSubmitStory, submitStory, hh, hok]
    · simp [submitDub, hh, hok]
    · simp [submitStory, hh, hok]

/-- Claim C7 witness: a 400 rejection with detail `"bad input"` yields a
thrown `"bad input"` from both endpoints and no `onJobStarted` call; a
401 rejection throws `"Session expired"`. -/
theorem C7_rejected_submission_witness :
    (handleSubmitDub cSample
      { status := 400, ok := false, detail := some "bad input", body := sampleJob }).2.jobStarted =
        none ∧
    (submitDub cSample
      { status := 400, ok := false, detail := some "bad input", body := sampleJob }).2 =
        Except.error "bad input" ∧
    (submitStory cSample
      { status := 400, ok := false, detail := some "bad input", body := sampleJob }).2 =
        Except.error "bad input" ∧
    (submitDub cSample
      { status := 401, ok := false, detail := some "bad input", body := sampleJob }).2 =
        Except.error "Session expired" := by
  have h := C7_rejected_submission cSample
    { status := 400, ok := false, detail := some "bad input", body := sampleJob } rfl
  have h2 := h.2.2.2.2.2 (by decide) (by decide)
  have h3 := C7_rejected_submission cSample
    { status := 401, ok := false, detail := some "bad input", body := sampleJob } rfl
  exact ⟨h.2.2.1, h2.1, h2.2, (h3.2.2.2.2.1 (Or.inl rfl)).1⟩

/-! ## Story form (src/unnamed/part_001)

`StoryForm.handleSubmit` builds the request body from the form state:
`text` is sent only in text mode, `theme` only in theme mode, `keyword`
only in theme mode and only when non-empty (JavaScript truthiness on the
string), `speaker` only when non-empty, and `no_upload` is always true. -/

/-- The form's input mode. -/
inductive StoryMode where
  | theme
  | text
deriving DecidableEq, Repr

/-- The request body sent to the story endpoint; `none` models an
`undefined` field omitted from the JSON. -/
structure StoryParams where
  text : Option String
  theme : Option String
  keyword : Option String
  target_lang : String
  speaker : Option String
  mood : String
  no_upload : Bool
deriving DecidableEq, Repr

/-- The object literal passed to `submitStory` in `handleSubmit`. -/
def buildStoryParams (mode : StoryMode) (themeVal keywordVal textVal targetLang speakerVal
    moodVal : String) : StoryParams :=
  { text := if mode = StoryMode.text then some textVal else none
  , theme := if mode = StoryMode.theme then some themeVal else none
  , keyword := if mode = StoryMode.theme ∧ keywordVal ≠ "" then some keywordVal else none
  , target_lang := targetLang
  , speaker := if speakerVal ≠ "" then some speakerVal else none
  , mood := moodVal
  , no_upload := true }

/-- Claim C10: every story submission carries exactly one input source:
in text mode the `theme` and `keyword` fields are omitted and `text`
holds the pasted story; in theme mode `text` is omitted, `theme` holds
the selected theme and `keyword` is included exactly when non-empty;
in no mode are both `text` and `theme` present. -/
theorem C10_single_source (themeVal keywordVal textVal targetLang speakerVal moodVal : String) :
    (buildStoryParams StoryMode.text themeVal keywordVal textVal targetLang speakerVal
      moodVal).theme = none ∧
    (buildStoryParams StoryMode.text themeVal keywordVal textVal targetLang speakerVal
      moodVal).keyword = none ∧
    (buildStoryParams StoryMode.text themeVal keywordVal textVal targetLang speakerVal
      moodVal).text = some textVal ∧
    (buildStoryParams StoryMode.theme themeVal keywordVal textVal targetLang speakerVal
      moodVal).text = none ∧
    (buildStoryParams StoryMode.theme themeVal keywordVal textVal targetLang speakerVal
      moodVal).theme = some themeVal ∧
    (buildStoryParams StoryMode.theme themeVal keywordVal textVal targetLang speakerVal
      moodVal).keyword = (if keywordVal = "" then none else some keywordVal) ∧
    (∀ mode, (buildStoryParams mode themeVal keywordVal textVal targetLang speakerVal
      moodVal).text = none ∨
      (buildStoryParams mode themeVal keywordVal textVal targetLang speakerVal
        moodVal).theme = none) := by
  refine ⟨?_, ?_, ?_, ?_, ?_, ?_, ?_⟩
  · simp [buildStoryParams]
  · simp [buildStoryParams]
  · simp [buildStoryParams]
  · simp [buildStoryParams]
  · simp [buildStoryParams]
  · by_cases hk : keywordVal = "" <;> simp [buildStoryParams, hk]
  · intro mode
    cases mode with
    | theme => left; simp [buildStoryParams]
    | text => right; simp [buildStoryParams]

/-! ## Cache Store coalescing (engine, modelled from the spec)

The Fingerprint & Cache Store is part of the pipeline engine, which is
not in the excerpt.  The spec requires that at most one computation per
key is performed concurrently: simultaneous requests for the same absent
key coalesce into a single upstream call and every caller receives the
same artifact or the same failure. -/

/-- Lookup of a key in an association list of in-flight results. -/
def findMemo {α : Type} (k : String) : List (String × α) → Option α
  | [] => none
  | (k2, v) :: rest => if k2 = k then some v else findMemo k rest

/-- Modelled from the spec: the Cache Store serving one batch of
simultaneous requests.  `memo` holds the result of every computation
already started for this batch; a request whose key is present joins it,
a request whose key is absent issues the single upstream adapter call
and registers its result (success or failure alike) for the remaining
requesters.  Returns the per-caller results in request order, and the
list of upstream calls issued. -/
def serveBatch {α : Type} (adapter : String → Except String α)
    (memo : List (String × Except String α)) :
    List String → List (String × Except String α) × List String
  | [] => ([], [])
  | k :: rest =>
    match findMemo k memo with
    | some r =>
        let p := serveBatch adapter memo rest
        ((k, r) :: p.1, p.2)
    | none =>
        let r := adapter k
        let p := serveBatch adapter ((k, r) :: memo) rest
        ((k, r) :: p.1, k :: p.2)

theorem serveBatch_hit {α : Type} (adapter : String → Except String α)
    (memo : List (String × Except String α)) (k : String) (r : Except String α)
    (hr : findMemo k memo = some r) (m : Nat) :
    serveBatch adapter memo (List.replicate m k) = (List.replicate m (k, r), []) := by
  induction m with
  | zero => rfl
  | succ m ih => simp [List.replicate, serveBatch, hr, ih]

/-- Claim C3: when `n` simultaneous jobs request the same absent cache
key, exactly one upstream adapter call is issued for that key, and all
`n` callers receive the same result — the adapter's artifact on success
or its failure on failure. -/
theorem C3_coalescing {α : Type} (adapter : String → Except String α)
    (memo : List (String × Except String α)) (k : String) (n : Nat)
    (habsent : findMemo k memo = none) (hn : 0 < n) :
    (serveBatch adapter memo (List.replicate n k)).2 = [k] ∧
    (serveBatch adapter memo (List.replicate n k)).1 = List.replicate n (k, adapter k) := by
  cases n with
  | zero => exact absurd hn (by decide)
  | succ m =>
      have hhit : findMemo k ((k, adapter k) :: memo) = some (adapter k) := by
        simp [findMemo]
      have hrest := serveBatch_hit adapter ((k, adapter k) :: memo) k (adapter k) hhit m
      constructor
      · simp [List.replicate, serveBatch, habsent, hrest]
      · simp [List.replicate, serveBatch, habsent, hrest]

/-- Claim C3 witness: three simultaneous requests for the absent key
`"stt:abc"` issue exactly one upstream call and all three callers get
the same artifact. -/
theorem C3_coalescing_witness :
    (serveBatch (fun _ => Except.ok 42) [] (List.replicate 3 "stt:abc")).2 = ["stt:abc"] ∧
    (serveBatch (fun _ => Except.ok 42) [] (List.replicate 3 "stt:abc")).1 =
      List.replicate 3 ("stt:abc", Except.ok 42) :=
  C3_coalescing (fun _ => Except.ok (42 : Nat)) [] "stt:abc" 3 rfl (by decide)

/-! ## Job termination (engine, modelled from the spec)

The Stage Executor and Pipeline Scheduler are part of the engine, which
is not in the excerpt.  The spec requires that every adapter call is
bounded by a per-call timeout whose expiry is classified as a retryable
failure, retries are capped at a fixed attempt limit, exhausting the
budget converts the failure into a fatal one, and the scheduler runs the
fixed stage list in order, stopping at the first fatal failure — so
every job reaches a terminal completed or failed state. -/

/-- Modelled from the spec: the classified outcome of one bounded
adapter attempt — success, a retryable failure (rate limit, transient
network, per-call timeout), or a fatal failure. -/
inductive AttemptResult (α : Type) where
  | ok (a : α)
  | retryable (msg : String)
  | fatal (msg : String)

/-- The final classification of one stage. -/
inductive StageOutcome (α : Type) where
  | success (a : α)
  | fatal (reason : String)

/-- Modelled from the spec: the Stage Executor's retry loop.  `attempt i`
is the classified outcome of the i-th adapter attempt; the loop stops on
success or a fatal failure and converts an exhausted retry budget into a
fatal failure.  Returns the outcome and the number of attempts made. -/
def runStage {α : Type} (attempt : Nat → AttemptResult α) :
    Nat → Nat → StageOutcome α × Nat
  | 0, _ => (StageOutcome.fatal "retries exhausted", 0)
  | b + 1, i =>
    match attempt i with
    | AttemptResult.ok a => (StageOutcome.success a, 1)
    | AttemptResult.fatal m => (StageOutcome.fatal m, 1)
    | AttemptResult.retryable _ =>
        let p := runStage attempt b (i + 1)
        (p.1, p.2 + 1)

/-- A job's terminal state. -/
inductive JobOutcome where
  | completed
  | failed (reason : String)

/-- Modelled from the spec: the Pipeline Scheduler.  It runs the fixed
ordered stage list, advancing on success and stopping with a failed
terminal state at the first fatal stage failure.  Returns the terminal
state and the total number of adapter attempts made. -/
def runPipeline (budget : Nat) : List (Nat → AttemptResult Unit) → JobOutcome × Nat
  | [] => (JobOutcome.completed, 0)
  | st :: rest =>
    match runStage st budget 0 with
    | (StageOutcome.success _, n) =>
        let p := runPipeline budget rest
        (p.1, n + p.2)
    | (StageOutcome.fatal m, n) => (JobOutcome.failed m, n)

theorem runStage_attempts_le {α : Type} (attempt : Nat → AttemptResult α) (b : Nat) :
    ∀ i, (runStage attempt b i).2 ≤ b := by
  induction b with
  | zero => intro i; simp [runStage]
  | succ b ih =>
      intro i
      cases h : attempt i with
      | ok a => simp [runStage, h]
      | fatal m => simp [runStage, h]
      | retryable m =>
          have := ih (i + 1)
          simp only [runStage, h]
          omega

/-- Claim C4: every job run by the scheduler reaches a terminal state —
completed or failed with a reason — and the total work is bounded: the
number of adapter attempts is at most the stage count times the per-stage
retry budget, so a job never hangs indefinitely. -/
theorem C4_terminal (budget : Nat) (stages : List (Nat → AttemptResult Unit)) :
    ((runPipeline budget stages).1 = JobOutcome.completed ∨
      ∃ m, (runPipeline budget stages).1 = JobOutcome.failed m) ∧
    (runPipeline budget stages).2 ≤ stages.length * budget := by
  constructor
  · cases h : (runPipeline budget stages).1 with
    | completed => exact Or.inl rfl
    | failed m => exact Or.inr ⟨m, rfl⟩
  · induction stages with
    | nil => simp [runPipeline]
    | cons st rest ih =>
        have hstage := runStage_attempts_le st budget 0
        have hsm : (rest.length + 1) * budget = rest.length * budget + budget :=
          Nat.succ_mul rest.length budget
        cases h : runStage st budget 0 with
        | mk outcome n =>
            have hn : n ≤ budget := by rw [h] at hstage; exact hstage
            cases outcome with
            | success a =>
                have hval : (runPipeline budget (st :: rest)).2 =
                    n + (runPipeline budget rest).2 := by
                  simp [runPipeline, h]
                rw [hval, List.length_cons, hsm]
                omega
            | fatal m =>
                have hval : (runPipeline budget (st :: rest)).2 = n := by
                  simp [runPipeline, h]
                rw [hval, List.length_cons, hsm]
                omega

end YT
